import Mathlib

/-!
Verification development for the edgex-go device-profile application layer
(core metadata service) and the support-notifications configuration struct.

The Go code is shallowly embedded: each application function becomes a Lean
function over an environment that bundles the injected collaborators (the
database client, the configuration values, the units-of-measure validator).
The database client is a record of response functions; every call the
application layer makes to it is recorded in an explicit trace, together
with the system events it schedules, so that theorems can speak about which
store operations were (or were never) invoked and which notifications were
scheduled.  Go functions returning a value together with an error become
Lean functions returning the value paired with an Option of the error, the
same shape as the Go multiple return.
-/

namespace EdgexMeta

/-- Error kinds of the go-mod-core-contracts errors package, restricted to
the kinds this layer produces or passes through. -/
inductive ErrKind where
  | ContractInvalid
  | StatusConflict
  | ServiceLocked
  | NotFound
  | Database
deriving DecidableEq, Repr

/-- An EdgeX error: a kind plus a message, as built by NewCommonEdgeX. -/
structure EdgeXError where
  kind : ErrKind
  message : String
deriving DecidableEq, Repr

/-- errors.NewCommonEdgeXWrapper re-surfaces an upstream error preserving its
kind (Kind walks the wrapped chain); at this level of abstraction the wrap
is the identity on the (kind, message) pair. -/
def NewCommonEdgeXWrapper (e : EdgeXError) : EdgeXError := e

/-- The Units field of a device resource's properties (the only property
field this layer reads). -/
structure ResourceProperties where
  Units : String
deriving DecidableEq, Repr

/-- models.DeviceResource, restricted to the fields this layer reads. -/
structure DeviceResource where
  Name : String
  Properties : ResourceProperties
deriving DecidableEq, Repr

/-- models.DeviceProfile, restricted to the fields this layer reads or
patches. -/
structure DeviceProfile where
  Id : String
  Name : String
  Description : String
  Manufacturer : String
  Model : String
  Labels : List String
  DeviceResources : List DeviceResource
deriving DecidableEq, Repr

/-- dtos.DeviceProfile: the DTO projection of a profile model.  The
projection dtos.FromDeviceProfileModelToDTO is external library code; what
matters here is which model a DTO was projected from, so the DTO is a
wrapper around the model. -/
structure DeviceProfileDTO where
  model : DeviceProfile
deriving DecidableEq, Repr

/-- dtos.FromDeviceProfileModelToDTO: projects a profile model to its DTO. -/
def FromDeviceProfileModelToDTO (p : DeviceProfile) : DeviceProfileDTO := ⟨p⟩

/-- A device row as returned by the store; only its existence matters here. -/
structure Device where
  Name : String
deriving DecidableEq, Repr

/-- A provision-watcher row as returned by the store; only its existence
matters here. -/
structure ProvisionWatcher where
  Name : String
deriving DecidableEq, Repr

/-- dtos.UpdateDeviceProfileBasicInfo: the patch payload.  Go pointer fields
become Options (none is the nil pointer). -/
structure UpdateDeviceProfileBasicInfo where
  Id : Option String
  Name : Option String
  Description : Option String
  Manufacturer : Option String
  Model : Option String
  Labels : Option (List String)
deriving DecidableEq, Repr

/-- One invocation of a store (DB client) operation, with its arguments. -/
inductive StoreOp where
  | addDeviceProfile (p : DeviceProfile)
  | updateDeviceProfile (p : DeviceProfile)
  | deviceProfileByName (name : String)
  | deviceProfileById (id : String)
  | deleteDeviceProfileByName (name : String)
  | devicesByProfileName (offset limit : Int) (name : String)
  | provisionWatchersByProfileName (offset limit : Int) (name : String)
  | deviceProfileCountByLabels (labels : List String)
  | allDeviceProfiles (offset limit : Int) (labels : List String)
  | deviceProfileCountByModel (model : String)
  | deviceProfilesByModel (offset limit : Int) (model : String)
  | deviceProfileCountByManufacturer (manufacturer : String)
  | deviceProfilesByManufacturer (offset limit : Int) (manufacturer : String)
  | deviceProfileCountByManufacturerAndModel (manufacturer model : String)
  | deviceProfilesByManufacturerAndModel (offset limit : Int) (manufacturer model : String)
  | deviceCountByProfileName (name : String)
deriving DecidableEq, Repr

/-- The action tag of a scheduled system event. -/
inductive SystemEventAction where
  | add
  | update
  | delete
deriving DecidableEq, Repr

/-- A system event scheduled (fire-and-forget, via a go statement) after a
successful mutation: the action tag and the DTO payload it carries. -/
structure SystemEvent where
  action : SystemEventAction
  payload : DeviceProfileDTO
deriving DecidableEq, Repr

/-- The observable effects of one application-layer call: the store
operations invoked in order, the profiles submitted to the capacity
checker, and the system events scheduled. -/
structure Trace where
  ops : List StoreOp
  capacityChecks : List DeviceProfile
  events : List SystemEvent
deriving DecidableEq, Repr

/-- The empty trace: no store operation invoked, no event scheduled. -/
def Trace.empty : Trace := ⟨[], [], []⟩

/-- The DB client interface (interfaces.DBClient), restricted to the methods
this layer calls.  Each method is an arbitrary response function: a value
paired with an optional error, the shape of the Go multiple return. -/
structure DBClient where
  AddDeviceProfile : DeviceProfile → DeviceProfile × Option EdgeXError
  UpdateDeviceProfile : DeviceProfile → Option EdgeXError
  DeviceProfileByName : String → DeviceProfile × Option EdgeXError
  DeviceProfileById : String → DeviceProfile × Option EdgeXError
  DeleteDeviceProfileByName : String → Option EdgeXError
  DevicesByProfileName : Int → Int → String → List Device × Option EdgeXError
  ProvisionWatchersByProfileName : Int → Int → String → List ProvisionWatcher × Option EdgeXError
  DeviceProfileCountByLabels : List String → Nat × Option EdgeXError
  AllDeviceProfiles : Int → Int → List String → List DeviceProfile × Option EdgeXError
  DeviceProfileCountByModel : String → Nat × Option EdgeXError
  DeviceProfilesByModel : Int → Int → String → List DeviceProfile × Option EdgeXError
  DeviceProfileCountByManufacturer : String → Nat × Option EdgeXError
  DeviceProfilesByManufacturer : Int → Int → String → List DeviceProfile × Option EdgeXError
  DeviceProfileCountByManufacturerAndModel : String → String → Nat × Option EdgeXError
  DeviceProfilesByManufacturerAndModel : Int → Int → String → String → List DeviceProfile × Option EdgeXError
  DeviceCountByProfileName : String → Nat × Option EdgeXError

/-- The dependency-injection environment: the DB client, the configuration
values this layer reads, the units-of-measure validator, and the capacity
checker. -/
structure Env where
  db : DBClient
  /-- config.Writable.UoM.Validation: the UoM-validation toggle. -/
  uomValidation : Bool
  /-- uom.Validate from the injected UnitsOfMeasure capability. -/
  uomValidate : String → Bool
  /-- config.Writable.MaxResources: the capacity ceiling, 0 = unlimited. -/
  maxResources : Int
  /-- config.Writable.ProfileChange.StrictDeviceProfileDeletes. -/
  strictDeviceProfileDeletes : Bool
  /-- Modelled from the spec: checkResourceCapacityByUpdateProfile is code of
  this repository absent from src (only its call site is present); per the
  spec it computes the resource count implied by the update from current
  stored state plus the proposed change and fails with a conflict error if
  it would exceed the configured ceiling.  It is modelled as an abstract
  capability reporting an optional error. -/
  checkResourceCapacity : DeviceProfile → Option EdgeXError

/-- The invalid-unit error for a device resource, as built at
deviceProfileUoMValidation's failure site. -/
def uomError (dr : DeviceResource) : EdgeXError :=
  ⟨ErrKind.ContractInvalid,
    "DeviceResource " ++ dr.Name ++ " units " ++ dr.Properties.Units ++ " is invalid"⟩

/-- The range-over loop body of deviceProfileUoMValidation: returns the
error for the first device resource whose unit the validator rejects. -/
def uomValidationLoop (validate : String → Bool) : List DeviceResource → Option EdgeXError
  | [] => none
  | dr :: rest =>
    if validate dr.Properties.Units then uomValidationLoop validate rest
    else some (uomError dr)

/-- deviceProfileUoMValidation: when the UoM-validation toggle is enabled,
validates every device resource's unit and fails invalid-contract on the
first offending resource; when disabled it does nothing. -/
def deviceProfileUoMValidation (env : Env) (p : DeviceProfile) : Option EdgeXError :=
  if env.uomValidation then uomValidationLoop env.uomValidate p.DeviceResources
  else none

/-- Modelled from the spec: utils.CheckCountRange (internal/pkg/utils) is
code of this repository absent from src (only its call sites are present).
Per the spec, it validates offset/limit against a total count: genuinely
invalid pagination inputs (negative offset, limit below the no-bound value
-1) fail invalid-contract; a window that is out of range relative to the
total (offset at or beyond the total) is degenerate-but-valid and
short-circuits to an empty result with no error; otherwise the caller may
proceed to fetch the page. -/
def CheckCountRange (totalCount : Nat) (offset limit : Int) : Bool × Option EdgeXError :=
  if offset < 0 then
    (false, some ⟨ErrKind.ContractInvalid, "offset out of range"⟩)
  else if limit < -1 then
    (false, some ⟨ErrKind.ContractInvalid, "limit out of range"⟩)
  else if (totalCount : Int) ≤ offset then
    (false, none)
  else
    (true, none)

/-- The result of AddDeviceProfile: the new id, the error, and the trace. -/
structure AddResult where
  id : String
  err : Option EdgeXError
  trace : Trace
deriving DecidableEq, Repr

/-- The result of a mutation returning only an error (update, patch,
delete), plus the trace. -/
structure MutResult where
  err : Option EdgeXError
  trace : Trace
deriving DecidableEq, Repr

/-- The result of a listing call: the DTO page, the total count, the error,
and the trace. -/
structure ListResult where
  profiles : List DeviceProfileDTO
  totalCount : Nat
  err : Option EdgeXError
  trace : Trace
deriving DecidableEq, Repr

/-- AddDeviceProfile: UoM-validate, insert via the store (which assigns the
final id), then schedule an add system event carrying the persisted
profile's projection. -/
def AddDeviceProfile (env : Env) (d : DeviceProfile) : AddResult :=
  match deviceProfileUoMValidation env d with
  | some e => ⟨"", some (NewCommonEdgeXWrapper e), Trace.empty⟩
  | none =>
    let r := env.db.AddDeviceProfile d
    let t1 : Trace := ⟨[StoreOp.addDeviceProfile d], [], []⟩
    match r.2 with
    | some e => ⟨"", some (NewCommonEdgeXWrapper e), t1⟩
    | none =>
      ⟨r.1.Id, none,
        ⟨t1.ops, [], [⟨SystemEventAction.add, FromDeviceProfileModelToDTO r.1⟩]⟩⟩

/-- UpdateDeviceProfile: UoM-validate; when the configured MaxResources
ceiling is positive, run the capacity checker; replace via the store;
re-fetch the now-current profile by name; schedule an update system event
carrying the re-fetched profile's projection. -/
def UpdateDeviceProfile (env : Env) (d : DeviceProfile) : MutResult :=
  match deviceProfileUoMValidation env d with
  | some e => ⟨some (NewCommonEdgeXWrapper e), Trace.empty⟩
  | none =>
    let capChecks : List DeviceProfile := if env.maxResources > 0 then [d] else []
    let capErr : Option EdgeXError :=
      if env.maxResources > 0 then env.checkResourceCapacity d else none
    match capErr with
    | some e => ⟨some (NewCommonEdgeXWrapper e), ⟨[], capChecks, []⟩⟩
    | none =>
      let uerr := env.db.UpdateDeviceProfile d
      let t1 : Trace := ⟨[StoreOp.updateDeviceProfile d], capChecks, []⟩
      match uerr with
      | some e => ⟨some (NewCommonEdgeXWrapper e), t1⟩
      | none =>
        let r := env.db.DeviceProfileByName d.Name
        let t2 : Trace := ⟨t1.ops ++ [StoreOp.deviceProfileByName d.Name], capChecks, []⟩
        match r.2 with
        | some e => ⟨some (NewCommonEdgeXWrapper e), t2⟩
        | none =>
          ⟨none,
            ⟨t2.ops, capChecks,
              [⟨SystemEventAction.update, FromDeviceProfileModelToDTO r.1⟩]⟩⟩

/-- DeleteDeviceProfileByName: refuse when strict deletes are enabled;
require a non-empty name; require the profile to exist; probe for one
associated device at offset 0 and one associated provision watcher at
offset 0, each non-empty result a status conflict; only then delete and
schedule a delete system event carrying the pre-deletion projection. -/
def DeleteDeviceProfileByName (env : Env) (name : String) : MutResult :=
  if env.strictDeviceProfileDeletes then
    ⟨some ⟨ErrKind.ServiceLocked,
      "profile deletion is not allowed when StrictDeviceProfileDeletes config is enabled"⟩,
      Trace.empty⟩
  else if name = "" then
    ⟨some ⟨ErrKind.ContractInvalid, "name is empty"⟩, Trace.empty⟩
  else
    let pr := env.db.DeviceProfileByName name
    let t1 : Trace := ⟨[StoreOp.deviceProfileByName name], [], []⟩
    match pr.2 with
    | some e => ⟨some (NewCommonEdgeXWrapper e), t1⟩
    | none =>
      let dr := env.db.DevicesByProfileName 0 1 name
      let t2 : Trace := ⟨t1.ops ++ [StoreOp.devicesByProfileName 0 1 name], [], []⟩
      match dr.2 with
      | some e => ⟨some (NewCommonEdgeXWrapper e), t2⟩
      | none =>
        if dr.1.length > 0 then
          ⟨some ⟨ErrKind.StatusConflict,
            "fail to delete the device profile when associated device exists"⟩, t2⟩
        else
          let wr := env.db.ProvisionWatchersByProfileName 0 1 name
          let t3 : Trace := ⟨t2.ops ++ [StoreOp.provisionWatchersByProfileName 0 1 name], [], []⟩
          match wr.2 with
          | some e => ⟨some (NewCommonEdgeXWrapper e), t3⟩
          | none =>
            if wr.1.length > 0 then
              ⟨some ⟨ErrKind.StatusConflict,
                "fail to delete the device profile when associated provisionWatcher exists"⟩, t3⟩
            else
              let derr := env.db.DeleteDeviceProfileByName name
              let t4 : Trace := ⟨t3.ops ++ [StoreOp.deleteDeviceProfileByName name], [], []⟩
              match derr with
              | some e => ⟨some (NewCommonEdgeXWrapper e), t4⟩
              | none =>
                ⟨none,
                  ⟨t4.ops, [],
                    [⟨SystemEventAction.delete, FromDeviceProfileModelToDTO pr.1⟩]⟩⟩

/-- AllDeviceProfiles: count by labels, run the pagination range check, and
only if the window is servable fetch the page and project to DTOs; always
return the precomputed total count. -/
def AllDeviceProfiles (env : Env) (offset limit : Int) (labels : List String) : ListResult :=
  let c := env.db.DeviceProfileCountByLabels labels
  let t1 : Trace := ⟨[StoreOp.deviceProfileCountByLabels labels], [], []⟩
  match c.2 with
  | some e => ⟨[], c.1, some (NewCommonEdgeXWrapper e), t1⟩
  | none =>
    let cr := CheckCountRange c.1 offset limit
    if cr.1 then
      let l := env.db.AllDeviceProfiles offset limit labels
      let t2 : Trace := ⟨t1.ops ++ [StoreOp.allDeviceProfiles offset limit labels], [], []⟩
      match l.2 with
      | some e => ⟨[], c.1, some (NewCommonEdgeXWrapper e), t2⟩
      | none => ⟨l.1.map FromDeviceProfileModelToDTO, c.1, none, t2⟩
    else
      ⟨[], c.1, cr.2, t1⟩

/-- DeviceProfilesByModel: require a non-empty model, count by model, run
the pagination range check, and only if the window is servable fetch the
page and project to DTOs. -/
def DeviceProfilesByModel (env : Env) (offset limit : Int) (model : String) : ListResult :=
  if model = "" then
    ⟨[], 0, some ⟨ErrKind.ContractInvalid, "model is empty"⟩, Trace.empty⟩
  else
    let c := env.db.DeviceProfileCountByModel model
    let t1 : Trace := ⟨[StoreOp.deviceProfileCountByModel model], [], []⟩
    match c.2 with
    | some e => ⟨[], c.1, some (NewCommonEdgeXWrapper e), t1⟩
    | none =>
      let cr := CheckCountRange c.1 offset limit
      if cr.1 then
        let l := env.db.DeviceProfilesByModel offset limit model
        let t2 : Trace := ⟨t1.ops ++ [StoreOp.deviceProfilesByModel offset limit model], [], []⟩
        match l.2 with
        | some e => ⟨[], c.1, some (NewCommonEdgeXWrapper e), t2⟩
        | none => ⟨l.1.map FromDeviceProfileModelToDTO, c.1, none, t2⟩
      else
        ⟨[], c.1, cr.2, t1⟩

/-- DeviceProfilesByManufacturer: require a non-empty manufacturer, count by
manufacturer, run the pagination range check, and only if the window is
servable fetch the page and project to DTOs. -/
def DeviceProfilesByManufacturer (env : Env) (offset limit : Int) (manufacturer : String) : ListResult :=
  if manufacturer = "" then
    ⟨[], 0, some ⟨ErrKind.ContractInvalid, "manufacturer is empty"⟩, Trace.empty⟩
  else
    let c := env.db.DeviceProfileCountByManufacturer manufacturer
    let t1 : Trace := ⟨[StoreOp.deviceProfileCountByManufacturer manufacturer], [], []⟩
    match c.2 with
    | some e => ⟨[], c.1, some (NewCommonEdgeXWrapper e), t1⟩
    | none =>
      let cr := CheckCountRange c.1 offset limit
      if cr.1 then
        let l := env.db.DeviceProfilesByManufacturer offset limit manufacturer
        let t2 : Trace := ⟨t1.ops ++ [StoreOp.deviceProfilesByManufacturer offset limit manufacturer], [], []⟩
        match l.2 with
        | some e => ⟨[], c.1, some (NewCommonEdgeXWrapper e), t2⟩
        | none => ⟨l.1.map FromDeviceProfileModelToDTO, c.1, none, t2⟩
      else
        ⟨[], c.1, cr.2, t1⟩

/-- DeviceProfilesByManufacturerAndModel: require a non-empty manufacturer
and a non-empty model (in that order), count, run the pagination range
check, and only if the window is servable fetch the page and project to
DTOs. -/
def DeviceProfilesByManufacturerAndModel (env : Env) (offset limit : Int) (manufacturer model : String) : ListResult :=
  if manufacturer = "" then
    ⟨[], 0, some ⟨ErrKind.ContractInvalid, "manufacturer is empty"⟩, Trace.empty⟩
  else if model = "" then
    ⟨[], 0, some ⟨ErrKind.ContractInvalid, "model is empty"⟩, Trace.empty⟩
  else
    let c := env.db.DeviceProfileCountByManufacturerAndModel manufacturer model
    let t1 : Trace := ⟨[StoreOp.deviceProfileCountByManufacturerAndModel manufacturer model], [], []⟩
    match c.2 with
    | some e => ⟨[], c.1, some (NewCommonEdgeXWrapper e), t1⟩
    | none =>
      let cr := CheckCountRange c.1 offset limit
      if cr.1 then
        let l := env.db.DeviceProfilesByManufacturerAndModel offset limit manufacturer model
        let t2 : Trace := ⟨t1.ops ++ [StoreOp.deviceProfilesByManufacturerAndModel offset limit manufacturer model], [], []⟩
        match l.2 with
        | some e => ⟨[], c.1, some (NewCommonEdgeXWrapper e), t2⟩
        | none => ⟨l.1.map FromDeviceProfileModelToDTO, c.1, none, t2⟩
      else
        ⟨[], c.1, cr.2, t1⟩

/-- deviceProfileByDTO: resolve the patch target by id when the payload's Id
pointer is non-nil and non-empty, else by name — where the Name pointer is
dereferenced without a nil check, so a payload with neither selector makes
the Go code panic (modelled as the outer none); then reject the payload if
its Name is present and differs from the resolved record's name.  Returns
the resolved profile paired with an optional error, plus the store
operations invoked. -/
def deviceProfileByDTO (db : DBClient) (dto : UpdateDeviceProfileBasicInfo) :
    Option (DeviceProfile × Option EdgeXError) × List StoreOp :=
  let fetch : Option ((DeviceProfile × Option EdgeXError) × List StoreOp) :=
    if dto.Id ≠ none ∧ dto.Id ≠ some "" then
      match dto.Id with
      | some id => some (db.DeviceProfileById id, [StoreOp.deviceProfileById id])
      | none => none
    else
      match dto.Name with
      | none => none
      | some n => some (db.DeviceProfileByName n, [StoreOp.deviceProfileByName n])
  match fetch with
  | none => (none, [])
  | some ((dp, some e), ops) => (some (dp, some (NewCommonEdgeXWrapper e)), ops)
  | some ((dp, none), ops) =>
    match dto.Name with
    | some n =>
      if n ≠ dp.Name then
        (some (dp, some ⟨ErrKind.ContractInvalid,
          "device profile name " ++ n ++ " not match the exsting " ++ dp.Name ++ " "⟩), ops)
      else (some (dp, none), ops)
    | none => (some (dp, none), ops)

/-- Modelled from the spec: requests.ReplaceDeviceProfileModelBasicInfoFieldsWithDTO
is external library code (go-mod-core-contracts) absent from src; per the
spec it applies only the fields present in the payload onto the fetched
record. -/
def ReplaceDeviceProfileModelBasicInfoFieldsWithDTO (dp : DeviceProfile)
    (dto : UpdateDeviceProfileBasicInfo) : DeviceProfile :=
  { dp with
    Name := dto.Name.getD dp.Name
    Description := dto.Description.getD dp.Description
    Manufacturer := dto.Manufacturer.getD dp.Manufacturer
    Model := dto.Model.getD dp.Model
    Labels := dto.Labels.getD dp.Labels }

/-- PatchDeviceProfileBasicInfo: resolve the target via deviceProfileByDTO,
merge the payload's present fields onto the fetched record, persist via
full replace, and schedule an update system event with the merged record.
The outer none propagates the nil-pointer panic of deviceProfileByDTO. -/
def PatchDeviceProfileBasicInfo (env : Env) (dto : UpdateDeviceProfileBasicInfo) :
    Option MutResult :=
  match deviceProfileByDTO env.db dto with
  | (none, _) => none
  | (some (_, some e), ops) => some ⟨some (NewCommonEdgeXWrapper e), ⟨ops, [], []⟩⟩
  | (some (dp, none), ops) =>
    let merged := ReplaceDeviceProfileModelBasicInfoFieldsWithDTO dp dto
    let uerr := env.db.UpdateDeviceProfile merged
    let t1 : Trace := ⟨ops ++ [StoreOp.updateDeviceProfile merged], [], []⟩
    match uerr with
    | some e => some ⟨some (NewCommonEdgeXWrapper e), t1⟩
    | none =>
      some ⟨none,
        ⟨t1.ops, [], [⟨SystemEventAction.update, FromDeviceProfileModelToDTO merged⟩]⟩⟩

/-- A profile with every field empty, used as the zero value a store
response function returns alongside an error. -/
def emptyProfile : DeviceProfile := ⟨"", "", "", "", "", [], []⟩

/-- A concrete device resource with unit Celsius. -/
def celsiusResource : DeviceResource := ⟨"Temperature", ⟨"Celsius"⟩⟩

/-- A concrete device resource with unit Bogons. -/
def bogonResource : DeviceResource := ⟨"Noise", ⟨"Bogons"⟩⟩

/-- A concrete profile used by the witnesses. -/
def sampleProfile : DeviceProfile :=
  ⟨"pid-1", "Temp-Sensor-X", "a thermometer", "Acme", "T1000", ["temp"], [celsiusResource]⟩

/-- A store whose every response function succeeds with a fixed value; the
witnesses override individual response functions. -/
def trivialDB : DBClient where
  AddDeviceProfile := fun d => (d, none)
  UpdateDeviceProfile := fun _ => none
  DeviceProfileByName := fun _ => (sampleProfile, none)
  DeviceProfileById := fun _ => (sampleProfile, none)
  DeleteDeviceProfileByName := fun _ => none
  DevicesByProfileName := fun _ _ _ => ([], none)
  ProvisionWatchersByProfileName := fun _ _ _ => ([], none)
  DeviceProfileCountByLabels := fun _ => (0, none)
  AllDeviceProfiles := fun _ _ _ => ([], none)
  DeviceProfileCountByModel := fun _ => (0, none)
  DeviceProfilesByModel := fun _ _ _ => ([], none)
  DeviceProfileCountByManufacturer := fun _ => (0, none)
  DeviceProfilesByManufacturer := fun _ _ _ => ([], none)
  DeviceProfileCountByManufacturerAndModel := fun _ _ => (0, none)
  DeviceProfilesByManufacturerAndModel := fun _ _ _ _ => ([], none)
  DeviceCountByProfileName := fun _ => (0, none)

/-- A concrete environment used by the witnesses: validation toggles off,
no capacity ceiling, permissive store. -/
def trivialEnv : Env where
  db := trivialDB
  uomValidation := false
  uomValidate := fun u => u == "Celsius"
  maxResources := 0
  strictDeviceProfileDeletes := false
  checkResourceCapacity := fun _ => none

end EdgexMeta

namespace NotificationsConfig

/-- External go-mod-bootstrap type, opaque to this repository; modelled as
an abstract carrier. -/
structure ClientsCollection where
  raw : String
deriving DecidableEq, Repr

/-- External go-mod-bootstrap type, opaque to this repository; modelled as
an abstract carrier. -/
structure BootstrapDatabase where
  raw : String
deriving DecidableEq, Repr

/-- External go-mod-bootstrap type, opaque to this repository; modelled as
an abstract carrier. -/
structure RegistryInfo where
  raw : String
deriving DecidableEq, Repr

/-- External go-mod-bootstrap type, opaque to this repository; modelled as
an abstract carrier. -/
structure ServiceInfo where
  raw : String
deriving DecidableEq, Repr

/-- External go-mod-bootstrap type, opaque to this repository; modelled as
an abstract carrier. -/
structure MessageBusInfo where
  raw : String
deriving DecidableEq, Repr

/-- External go-mod-bootstrap type, opaque to this repository; modelled as
an abstract carrier. -/
structure InsecureSecrets where
  raw : String
deriving DecidableEq, Repr

/-- External go-mod-bootstrap type, opaque to this repository; modelled as
an abstract carrier. -/
structure TelemetryInfo where
  raw : String
deriving DecidableEq, Repr

/-- WritableInfo of the support-notifications configuration. -/
structure WritableInfo where
  LogLevel : String
  ResendLimit : Int
  ResendInterval : String
  InsecureSecrets : InsecureSecrets
  Telemetry : TelemetryInfo
deriving DecidableEq, Repr

/-- SmtpInfo of the support-notifications configuration. -/
structure SmtpInfo where
  Host : String
  Port : Int
  Sender : String
  EnableSelfSignedCert : Bool
  Subject : String
  SecretName : String
  AuthMode : String
deriving DecidableEq, Repr

/-- NotificationRetention of the support-notifications configuration. -/
structure NotificationRetention where
  Enabled : Bool
  Interval : String
  MaxCap : Nat
  MinCap : Nat
deriving DecidableEq, Repr

/-- ConfigurationStruct of the support-notifications service. -/
structure ConfigurationStruct where
  Writable : WritableInfo
  Clients : ClientsCollection
  Database : BootstrapDatabase
  Registry : RegistryInfo
  Service : ServiceInfo
  MessageBus : MessageBusInfo
  Smtp : SmtpInfo
  Retention : NotificationRetention
deriving DecidableEq, Repr

/-- A value of Go interface type, as received from the registry: its dynamic
type either is a pointer to ConfigurationStruct, or a pointer to
WritableInfo, or some other type (on which both type assertions fail). -/
inductive RawConfig where
  | configurationStructPtr (c : ConfigurationStruct)
  | writableInfoPtr (w : WritableInfo)
  | otherType
deriving DecidableEq, Repr

/-- UpdateFromRaw: type-assert the raw value to a ConfigurationStruct
pointer; on success overwrite the whole configuration and return true, on
failure leave it unchanged and return false.  Returns the resulting
configuration paired with the ok flag. -/
def UpdateFromRaw (c : ConfigurationStruct) (rawConfig : RawConfig) :
    ConfigurationStruct × Bool :=
  match rawConfig with
  | RawConfig.configurationStructPtr configuration => (configuration, true)
  | _ => (c, false)

/-- UpdateWritableFromRaw: type-assert the raw value to a WritableInfo
pointer; on success overwrite the configuration's Writable section and
return true, on failure leave the configuration unchanged and return
false. -/
def UpdateWritableFromRaw (c : ConfigurationStruct) (rawWritable : RawConfig) :
    ConfigurationStruct × Bool :=
  match rawWritable with
  | RawConfig.writableInfoPtr writable => ({ c with Writable := writable }, true)
  | _ => (c, false)

end NotificationsConfig

namespace EdgexMeta

/-- A store in which the profile Temp-Sensor-X is referenced by one device;
used by the C1 witness. -/
def dbWithDevice : DBClient :=
  { trivialDB with DevicesByProfileName := fun _ _ _ => ([⟨"dev-1"⟩], none) }

/-- The environment of the C1 witness: permissive configuration over the
store with one referencing device. -/
def envWithDevice : Env := { trivialEnv with db := dbWithDevice }

/-- A store holding five matching profiles for every count filter; used by
the C7 witness. -/
def dbCount5 : DBClient :=
  { trivialDB with
    DeviceProfileCountByLabels := fun _ => (5, none)
    DeviceProfileCountByModel := fun _ => (5, none) }

/-- The environment of the C7 witness. -/
def envCount5 : Env := { trivialEnv with db := dbCount5 }

/-- C3: when the strict-device-profile-deletes configuration flag is
enabled, DeleteDeviceProfileByName returns the service-locked error with
the empty trace — no store operation is invoked — for every name (empty or
not) and every store. -/
theorem C3_strict_deletes_service_locked (env : Env) (name : String)
    (h : env.strictDeviceProfileDeletes = true) :
    DeleteDeviceProfileByName env name =
      ⟨some ⟨ErrKind.ServiceLocked,
        "profile deletion is not allowed when StrictDeviceProfileDeletes config is enabled"⟩,
        Trace.empty⟩ := by
  simp [DeleteDeviceProfileByName, h]

/-- Witness for C3 at a concrete environment and name. -/
theorem C3_strict_deletes_service_locked_witness :
    DeleteDeviceProfileByName { trivialEnv with strictDeviceProfileDeletes := true } "" =
      ⟨some ⟨ErrKind.ServiceLocked,
        "profile deletion is not allowed when StrictDeviceProfileDeletes config is enabled"⟩,
        Trace.empty⟩ :=
  C3_strict_deletes_service_locked { trivialEnv with strictDeviceProfileDeletes := true } "" rfl

/-- C1: deleting an existing profile that is referenced by at least one
device — or, the device probe coming back empty, by at least one provision
watcher — fails with a status-conflict error and the store's delete
operation is never invoked: the trace holds exactly the lookup and the
bounded existence probes, each probe requesting one row at offset 0. -/
theorem C1_delete_referenced_conflict (env : Env) (name : String) (p : DeviceProfile)
    (hstrict : env.strictDeviceProfileDeletes = false)
    (hname : ¬ name = "")
    (hexists : env.db.DeviceProfileByName name = (p, none)) :
    (∀ ds, env.db.DevicesByProfileName 0 1 name = (ds, none) → ds ≠ [] →
      DeleteDeviceProfileByName env name =
        ⟨some ⟨ErrKind.StatusConflict,
          "fail to delete the device profile when associated device exists"⟩,
          ⟨[StoreOp.deviceProfileByName name, StoreOp.devicesByProfileName 0 1 name], [], []⟩⟩
      ∧ ∀ q, StoreOp.deleteDeviceProfileByName q ∉ (DeleteDeviceProfileByName env name).trace.ops)
    ∧ (∀ ws, env.db.DevicesByProfileName 0 1 name = ([], none) →
        env.db.ProvisionWatchersByProfileName 0 1 name = (ws, none) → ws ≠ [] →
      DeleteDeviceProfileByName env name =
        ⟨some ⟨ErrKind.StatusConflict,
          "fail to delete the device profile when associated provisionWatcher exists"⟩,
          ⟨[StoreOp.deviceProfileByName name, StoreOp.devicesByProfileName 0 1 name,
            StoreOp.provisionWatchersByProfileName 0 1 name], [], []⟩⟩
      ∧ ∀ q, StoreOp.deleteDeviceProfileByName q ∉ (DeleteDeviceProfileByName env name).trace.ops) := by
  constructor
  · intro ds hds hne
    have hlen : 0 < ds.length := List.length_pos.mpr hne
    have hmain : DeleteDeviceProfileByName env name =
        ⟨some ⟨ErrKind.StatusConflict,
          "fail to delete the device profile when associated device exists"⟩,
          ⟨[StoreOp.deviceProfileByName name, StoreOp.devicesByProfileName 0 1 name], [], []⟩⟩ := by
      simp [DeleteDeviceProfileByName, hstrict, hname, hexists, hds, hlen, NewCommonEdgeXWrapper]
    refine ⟨hmain, ?_⟩
    intro q
    rw [hmain]
    simp
  · intro ws hds hws hne
    have hlen : 0 < ws.length := List.length_pos.mpr hne
    have hmain : DeleteDeviceProfileByName env name =
        ⟨some ⟨ErrKind.StatusConflict,
          "fail to delete the device profile when associated provisionWatcher exists"⟩,
          ⟨[StoreOp.deviceProfileByName name, StoreOp.devicesByProfileName 0 1 name,
            StoreOp.provisionWatchersByProfileName 0 1 name], [], []⟩⟩ := by
      simp [DeleteDeviceProfileByName, hstrict, hname, hexists, hds, hws, hlen, NewCommonEdgeXWrapper]
    refine ⟨hmain, ?_⟩
    intro q
    rw [hmain]
    simp

/-- Witness for C1 at a concrete environment in which one device references
the profile. -/
theorem C1_delete_referenced_conflict_witness :
    DeleteDeviceProfileByName envWithDevice "Temp-Sensor-X" =
      ⟨some ⟨ErrKind.StatusConflict,
        "fail to delete the device profile when associated device exists"⟩,
        ⟨[StoreOp.deviceProfileByName "Temp-Sensor-X",
          StoreOp.devicesByProfileName 0 1 "Temp-Sensor-X"], [], []⟩⟩ :=
  ((C1_delete_referenced_conflict envWithDevice "Temp-Sensor-X" sampleProfile rfl
    (by decide) rfl).1 [⟨"dev-1"⟩] rfl (by decide)).1

/-- The range-over loop of deviceProfileUoMValidation stops at the first
device resource whose unit the validator rejects and returns its error. -/
theorem uomValidationLoop_first_invalid (validate : String → Bool)
    (pre : List DeviceResource) (dr : DeviceResource) (rest : List DeviceResource)
    (hpre : ∀ x ∈ pre, validate x.Properties.Units = true)
    (hdr : validate dr.Properties.Units = false) :
    uomValidationLoop validate (pre ++ dr :: rest) = some (uomError dr) := by
  induction pre with
  | nil => simp [uomValidationLoop, hdr]
  | cons a as ih =>
    have ha := hpre a (by simp)
    simp only [List.cons_append, uomValidationLoop, ha, if_true]
    exact ih (fun x hx => hpre x (by simp [hx]))

/-- C2: with the UoM-validation toggle enabled and dr the first device
resource of the profile whose unit string the validator rejects, both
AddDeviceProfile and UpdateDeviceProfile fail with the invalid-contract
error naming dr and leave the empty trace — in particular no store insert
and no store replace is performed; and with the toggle disabled the
validation step accepts every profile, whatever the validator says: no unit
is validated. -/
theorem C2_uom_validation (env : Env) (d : DeviceProfile)
    (pre rest : List DeviceResource) (dr : DeviceResource)
    (hval : env.uomValidation = true)
    (hsplit : d.DeviceResources = pre ++ dr :: rest)
    (hpre : ∀ x ∈ pre, env.uomValidate x.Properties.Units = true)
    (hdr : env.uomValidate dr.Properties.Units = false) :
    AddDeviceProfile env d = ⟨"", some (uomError dr), Trace.empty⟩
    ∧ UpdateDeviceProfile env d = ⟨some (uomError dr), Trace.empty⟩
    ∧ (uomError dr).kind = ErrKind.ContractInvalid
    ∧ (∀ env2 : Env, ∀ p : DeviceProfile, env2.uomValidation = false →
        deviceProfileUoMValidation env2 p = none) := by
  have hloop : deviceProfileUoMValidation env d = some (uomError dr) := by
    rw [deviceProfileUoMValidation, hval, if_pos rfl, hsplit]
    exact uomValidationLoop_first_invalid env.uomValidate pre dr rest hpre hdr
  refine ⟨?_, ?_, rfl, ?_⟩
  · simp [AddDeviceProfile, hloop, NewCommonEdgeXWrapper]
  · simp [UpdateDeviceProfile, hloop, NewCommonEdgeXWrapper]
  · intro env2 p h2
    simp [deviceProfileUoMValidation, h2]

/-- Witness for C2 at a concrete profile whose second resource carries the
unrecognized unit Bogons, under a validator accepting only Celsius. -/
theorem C2_uom_validation_witness :
    AddDeviceProfile
      { trivialEnv with uomValidation := true }
      { sampleProfile with DeviceResources := [celsiusResource, bogonResource] } =
      ⟨"", some (uomError bogonResource), Trace.empty⟩ :=
  (C2_uom_validation { trivialEnv with uomValidation := true }
    { sampleProfile with DeviceResources := [celsiusResource, bogonResource] }
    [celsiusResource] [] bogonResource rfl rfl (by decide) (by decide)).1

/-- C4: the capacity checker is consulted if and only if the configured
MaxResources ceiling is positive: with a non-positive ceiling it never runs
(on any path); with a positive ceiling it runs exactly once on the updated
profile as soon as UoM validation passes; and when it reports an error e —
per the spec a status-conflict error whenever the ceiling would be
exceeded — UpdateDeviceProfile returns exactly e and the store's replace is
never invoked. -/
theorem C4_capacity_check (env : Env) (d : DeviceProfile) :
    (¬ env.maxResources > 0 → (UpdateDeviceProfile env d).trace.capacityChecks = [])
    ∧ (env.maxResources > 0 → deviceProfileUoMValidation env d = none →
        (UpdateDeviceProfile env d).trace.capacityChecks = [d])
    ∧ (env.maxResources > 0 → deviceProfileUoMValidation env d = none →
        ∀ e, env.checkResourceCapacity d = some e →
          UpdateDeviceProfile env d = ⟨some e, ⟨[], [d], []⟩⟩) := by
  refine ⟨?_, ?_, ?_⟩
  · intro hmax
    rw [UpdateDeviceProfile]
    cases hv : deviceProfileUoMValidation env d with
    | some e => simp [Trace.empty]
    | none =>
      simp only [hmax, if_false]
      cases env.checkResourceCapacity d <;>
        cases env.db.UpdateDeviceProfile d <;>
          simp <;>
            cases h2 : (env.db.DeviceProfileByName d.Name).2 <;> simp
  · intro hmax huom
    rw [UpdateDeviceProfile, huom]
    simp only [hmax, if_true]
    cases env.checkResourceCapacity d with
    | some e => simp
    | none =>
      cases env.db.UpdateDeviceProfile d with
      | some e => simp
      | none => cases h2 : (env.db.DeviceProfileByName d.Name).2 <;> simp [h2]
  · intro hmax huom e hcap
    rw [UpdateDeviceProfile, huom]
    simp [hmax, hcap, NewCommonEdgeXWrapper]

/-- Witness for C4: ceiling 1 and a checker reporting a conflict. -/
theorem C4_capacity_check_witness :
    UpdateDeviceProfile
      { trivialEnv with
        maxResources := 1
        checkResourceCapacity := fun _ =>
          some ⟨ErrKind.StatusConflict, "device resource capacity exceeded"⟩ }
      sampleProfile =
      ⟨some ⟨ErrKind.StatusConflict, "device resource capacity exceeded"⟩,
        ⟨[], [sampleProfile], []⟩⟩ :=
  (C4_capacity_check
    { trivialEnv with
      maxResources := 1
      checkResourceCapacity := fun _ =>
        some ⟨ErrKind.StatusConflict, "device resource capacity exceeded"⟩ }
    sampleProfile).2.2 (by decide) rfl
    ⟨ErrKind.StatusConflict, "device resource capacity exceeded"⟩ rfl

/-- C5: patch-basic-info resolves its target by id when the payload's Id is
non-nil and non-empty, else by name; when the payload also carries a Name
that differs from the resolved record's name, the call fails with the
invalid-contract mismatch error and the trace holds only the resolving
fetch — the store replace is never invoked, so the stored record is
unchanged. -/
theorem C5_patch_name_mismatch (env : Env) (dto : UpdateDeviceProfileBasicInfo)
    (dp : DeviceProfile) (n : String)
    (hn : dto.Name = some n) (hne : ¬ n = dp.Name) :
    (∀ id, dto.Id = some id → ¬ id = "" → env.db.DeviceProfileById id = (dp, none) →
      PatchDeviceProfileBasicInfo env dto =
        some ⟨some ⟨ErrKind.ContractInvalid,
          "device profile name " ++ n ++ " not match the exsting " ++ dp.Name ++ " "⟩,
          ⟨[StoreOp.deviceProfileById id], [], []⟩⟩)
    ∧ ((dto.Id = none ∨ dto.Id = some "") → env.db.DeviceProfileByName n = (dp, none) →
      PatchDeviceProfileBasicInfo env dto =
        some ⟨some ⟨ErrKind.ContractInvalid,
          "device profile name " ++ n ++ " not match the exsting " ++ dp.Name ++ " "⟩,
          ⟨[StoreOp.deviceProfileByName n], [], []⟩⟩) := by
  constructor
  · intro id hid hidne hdb
    simp [PatchDeviceProfileBasicInfo, deviceProfileByDTO, hid, hidne, hdb, hn, hne,
      NewCommonEdgeXWrapper]
  · intro hid hdb
    rcases hid with h0 | h0 <;>
      simp [PatchDeviceProfileBasicInfo, deviceProfileByDTO, h0, hdb, hn, hne,
        NewCommonEdgeXWrapper]

/-- Witness for C5: a payload selecting by id but carrying the name Other,
while the stored record resolved by that id is named Temp-Sensor-X. -/
theorem C5_patch_name_mismatch_witness :
    PatchDeviceProfileBasicInfo trivialEnv
      ⟨some "pid-1", some "Other", none, none, none, none⟩ =
      some ⟨some ⟨ErrKind.ContractInvalid,
        "device profile name " ++ "Other" ++ " not match the exsting " ++
          sampleProfile.Name ++ " "⟩,
        ⟨[StoreOp.deviceProfileById "pid-1"], [], []⟩⟩ :=
  (C5_patch_name_mismatch trivialEnv
    ⟨some "pid-1", some "Other", none, none, none, none⟩
    sampleProfile "Other" rfl (by decide)).1 "pid-1" rfl (by decide) rfl

/-- C6: once validation and capacity pass and the store replace succeeds,
UpdateDeviceProfile re-fetches the profile by the input's name (the fetch
follows the replace in the trace); when the re-fetch fails the call returns
that error even though the replace has already been invoked and committed,
and when the re-fetch succeeds with stored profile p the single scheduled
update event carries the projection of p — the re-fetched profile — not of
the caller's input. -/
theorem C6_update_refetch (env : Env) (d : DeviceProfile)
    (huom : deviceProfileUoMValidation env d = none)
    (hcap : env.maxResources > 0 → env.checkResourceCapacity d = none)
    (hrep : env.db.UpdateDeviceProfile d = none) :
    (∀ q e, env.db.DeviceProfileByName d.Name = (q, some e) →
      UpdateDeviceProfile env d =
        ⟨some e,
          ⟨[StoreOp.updateDeviceProfile d, StoreOp.deviceProfileByName d.Name],
            if env.maxResources > 0 then [d] else [], []⟩⟩)
    ∧ (∀ p, env.db.DeviceProfileByName d.Name = (p, none) →
      UpdateDeviceProfile env d =
        ⟨none,
          ⟨[StoreOp.updateDeviceProfile d, StoreOp.deviceProfileByName d.Name],
            if env.maxResources > 0 then [d] else [],
            [⟨SystemEventAction.update, FromDeviceProfileModelToDTO p⟩]⟩⟩) := by
  have hcap2 : (if env.maxResources > 0 then env.checkResourceCapacity d else none)
      = none := by
    by_cases hm : env.maxResources > 0
    · simp [hm, hcap hm]
    · simp [hm]
  constructor
  · intro q e hq
    rw [UpdateDeviceProfile, huom]
    simp only [hcap2]
    simp [hrep, hq, NewCommonEdgeXWrapper]
  · intro p hp
    rw [UpdateDeviceProfile, huom]
    simp only [hcap2]
    simp [hrep, hp]

/-- Witness for C6 at the permissive environment: the replace succeeds and
the re-fetch returns the stored Temp-Sensor-X profile, which the scheduled
update event carries. -/
theorem C6_update_refetch_witness :
    UpdateDeviceProfile trivialEnv sampleProfile =
      ⟨none,
        ⟨[StoreOp.updateDeviceProfile sampleProfile,
          StoreOp.deviceProfileByName sampleProfile.Name],
          if trivialEnv.maxResources > 0 then [sampleProfile] else [],
          [⟨SystemEventAction.update, FromDeviceProfileModelToDTO sampleProfile⟩]⟩⟩ :=
  (C6_update_refetch trivialEnv sampleProfile rfl
    (fun h => absurd h (by decide)) rfl).2 sampleProfile rfl

/-- C7: for AllDeviceProfiles, and for DeviceProfilesByModel with a
non-empty model, when the store count succeeds with total n the returned
totalCount equals n in every outcome; when the range check declares the
window unservable the call returns the empty page, the precomputed total,
and exactly the range-check verdict's error, with no page fetch invoked;
the verdict is error-free for the degenerate out-of-range window (valid
offset and limit, offset at or beyond the total) and an invalid-contract
error for a genuinely invalid negative offset. -/
theorem C7_totalcount_and_range (env : Env) (offset limit : Int)
    (labels : List String) (model : String) (n m : Nat)
    (hl : env.db.DeviceProfileCountByLabels labels = (n, none))
    (hm : env.db.DeviceProfileCountByModel model = (m, none))
    (hmodel : ¬ model = "") :
    (AllDeviceProfiles env offset limit labels).totalCount = n
    ∧ ((CheckCountRange n offset limit).1 = false →
        AllDeviceProfiles env offset limit labels =
          ⟨[], n, (CheckCountRange n offset limit).2,
            ⟨[StoreOp.deviceProfileCountByLabels labels], [], []⟩⟩)
    ∧ (DeviceProfilesByModel env offset limit model).totalCount = m
    ∧ ((CheckCountRange m offset limit).1 = false →
        DeviceProfilesByModel env offset limit model =
          ⟨[], m, (CheckCountRange m offset limit).2,
            ⟨[StoreOp.deviceProfileCountByModel model], [], []⟩⟩)
    ∧ (0 ≤ offset → -1 ≤ limit → (n : Int) ≤ offset →
        CheckCountRange n offset limit = (false, none))
    ∧ (offset < 0 →
        CheckCountRange n offset limit =
          (false, some ⟨ErrKind.ContractInvalid, "offset out of range"⟩)) := by
  refine ⟨?_, ?_, ?_, ?_, ?_, ?_⟩
  · rw [AllDeviceProfiles]
    simp only [hl]
    by_cases hcr : (CheckCountRange n offset limit).1
    · simp only [hcr, if_true]
      cases hx : (env.db.AllDeviceProfiles offset limit labels).2 <;> simp [hx]
    · simp [hcr]
  · intro hcr
    rw [AllDeviceProfiles]
    simp [hl, hcr]
  · rw [DeviceProfilesByModel]
    simp only [hmodel, if_false]
    simp only [hm]
    by_cases hcr : (CheckCountRange m offset limit).1
    · simp only [hcr, if_true]
      cases hx : (env.db.DeviceProfilesByModel offset limit model).2 <;> simp [hx]
    · simp [hcr]
  · intro hcr
    rw [DeviceProfilesByModel]
    simp only [hmodel, if_false]
    simp [hm, hcr]
  · intro h1 h2 h3
    rw [CheckCountRange, if_neg (by omega), if_neg (by omega), if_pos h3]
  · intro h1
    rw [CheckCountRange, if_pos h1]

/-- Witness for C7: five matching rows, window at offset 10 with limit 3 —
out of range, so the listing returns the empty page, total 5 and no
error. -/
theorem C7_totalcount_and_range_witness :
    AllDeviceProfiles envCount5 10 3 ["temp"] =
      ⟨[], 5, (CheckCountRange 5 10 3).2,
        ⟨[StoreOp.deviceProfileCountByLabels ["temp"]], [], []⟩⟩
    ∧ CheckCountRange 5 10 3 = (false, none) :=
  ⟨(C7_totalcount_and_range envCount5 10 3 ["temp"] "T1000" 5 5 rfl rfl
      (by decide)).2.1 (by decide),
   (C7_totalcount_and_range envCount5 10 3 ["temp"] "T1000" 5 5 rfl rfl
      (by decide)).2.2.2.2.1 (by decide) (by decide) (by decide)⟩

/-- C8: every filtered listing call with an empty required filter field —
model empty in list-by-model, manufacturer empty in list-by-manufacturer,
manufacturer or model empty in list-by-manufacturer-and-model — fails with
the invalid-contract error and the empty trace: no count and no list store
operation is invoked. -/
theorem C8_empty_filter (env : Env) (offset limit : Int) (manufacturer model : String) :
    DeviceProfilesByModel env offset limit "" =
      ⟨[], 0, some ⟨ErrKind.ContractInvalid, "model is empty"⟩, Trace.empty⟩
    ∧ DeviceProfilesByManufacturer env offset limit "" =
      ⟨[], 0, some ⟨ErrKind.ContractInvalid, "manufacturer is empty"⟩, Trace.empty⟩
    ∧ DeviceProfilesByManufacturerAndModel env offset limit "" model =
      ⟨[], 0, some ⟨ErrKind.ContractInvalid, "manufacturer is empty"⟩, Trace.empty⟩
    ∧ (¬ manufacturer = "" →
        DeviceProfilesByManufacturerAndModel env offset limit manufacturer "" =
          ⟨[], 0, some ⟨ErrKind.ContractInvalid, "model is empty"⟩, Trace.empty⟩) := by
  refine ⟨?_, ?_, ?_, ?_⟩
  · rw [DeviceProfilesByModel, if_pos rfl]
  · rw [DeviceProfilesByManufacturer, if_pos rfl]
  · rw [DeviceProfilesByManufacturerAndModel, if_pos rfl]
  · intro hman
    rw [DeviceProfilesByManufacturerAndModel, if_neg hman, if_pos rfl]

/-- Witness for C8 at concrete pagination values and filters. -/
theorem C8_empty_filter_witness :
    DeviceProfilesByModel trivialEnv 0 10 "" =
      ⟨[], 0, some ⟨ErrKind.ContractInvalid, "model is empty"⟩, Trace.empty⟩
    ∧ DeviceProfilesByManufacturerAndModel trivialEnv 0 10 "Acme" "" =
      ⟨[], 0, some ⟨ErrKind.ContractInvalid, "model is empty"⟩, Trace.empty⟩ :=
  ⟨(C8_empty_filter trivialEnv 0 10 "Acme" "T1000").1,
   (C8_empty_filter trivialEnv 0 10 "Acme" "T1000").2.2.2 (by decide)⟩

/-- C9: deviceProfileByDTO dereferences the payload's Name pointer without a
nil check whenever the Id is nil or empty, so a payload with neither a
non-empty Id nor a Name reaches the nil dereference (the none result); and
under the precondition that every payload carries a non-empty Id or a
non-nil Name the dereference branch is unreachable and the resolution is
total. -/
theorem C9_dto_nil_deref (db : DBClient) (dto : UpdateDeviceProfileBasicInfo) :
    ((dto.Id = none ∨ dto.Id = some "") → dto.Name = none →
      (deviceProfileByDTO db dto).1 = none)
    ∧ (∀ id, dto.Id = some id → ¬ id = "" → (deviceProfileByDTO db dto).1 ≠ none)
    ∧ (∀ n, dto.Name = some n → (deviceProfileByDTO db dto).1 ≠ none) := by
  refine ⟨?_, ?_, ?_⟩
  · intro hid hname
    rcases hid with h | h <;> simp [deviceProfileByDTO, h, hname]
  · intro id hid hidne
    rw [deviceProfileByDTO]
    simp only [hid]
    rw [if_pos (by simp [hidne])]
    rcases hx : db.DeviceProfileById id with ⟨dp, e⟩
    cases e <;> cases hn : dto.Name <;> simp [hx] <;> split <;> simp
  · intro n hn
    rw [deviceProfileByDTO]
    by_cases hid : dto.Id ≠ none ∧ dto.Id ≠ some ""
    · rw [if_pos hid]
      rcases h0 : dto.Id with _ | id
      · exact absurd h0 hid.1
      · rcases hx : db.DeviceProfileById id with ⟨dp, e⟩
        cases e <;> simp [hx, hn] <;> split <;> simp
    · rw [if_neg hid]
      rcases hx : db.DeviceProfileByName n with ⟨dp, e⟩
      cases e <;> simp [hn, hx] <;> split <;> simp

/-- Witness for C9: a payload with neither selector reaches the nil
dereference; a payload with only a name resolves. -/
theorem C9_dto_nil_deref_witness :
    (deviceProfileByDTO trivialDB ⟨none, none, none, none, none, none⟩).1 = none
    ∧ (deviceProfileByDTO trivialDB
        ⟨none, some "Temp-Sensor-X", none, none, none, none⟩).1 ≠ none :=
  ⟨(C9_dto_nil_deref trivialDB ⟨none, none, none, none, none, none⟩).1
      (Or.inl rfl) rfl,
   (C9_dto_nil_deref trivialDB
      ⟨none, some "Temp-Sensor-X", none, none, none, none⟩).2.2
      "Temp-Sensor-X" rfl⟩

end EdgexMeta

namespace NotificationsConfig

/-- C10: UpdateFromRaw returns true and overwrites the whole configuration
exactly when the raw argument's dynamic type is a ConfigurationStruct
pointer, and UpdateWritableFromRaw returns true and overwrites only the
Writable section exactly when the raw argument's dynamic type is a
WritableInfo pointer; for every argument of any other type they return
false and leave the configuration completely unchanged. -/
theorem C10_update_from_raw (c c2 : ConfigurationStruct) (w : WritableInfo) :
    UpdateFromRaw c (RawConfig.configurationStructPtr c2) = (c2, true)
    ∧ UpdateFromRaw c (RawConfig.writableInfoPtr w) = (c, false)
    ∧ UpdateFromRaw c RawConfig.otherType = (c, false)
    ∧ UpdateWritableFromRaw c (RawConfig.writableInfoPtr w) =
        ({ c with Writable := w }, true)
    ∧ UpdateWritableFromRaw c (RawConfig.configurationStructPtr c2) = (c, false)
    ∧ UpdateWritableFromRaw c RawConfig.otherType = (c, false) :=
  ⟨rfl, rfl, rfl, rfl, rfl, rfl⟩

end NotificationsConfig
